import Mathlib

/-!
Verification of the retrieval-and-prompt-assembly pipeline of a minimal RAG
system (modules `search.py`, `ingest.py`, `chat.py`).  Strings are embedded as
`List Char`; the external collaborators (embedding client, vector store,
language model, PDF loader) are parameters of environment structures whose
behaviour — including raised exceptions — is arbitrary.  Python exceptions are
embedded as an error type carried in `Except`; code that swallows exceptions
is embedded as an explicit `match` on the `Except` value.  Pipeline functions
are additionally instrumented with a trace of the observable external calls
(the second component of their result), so that "stage X is never invoked"
claims are statements about the trace.
-/

namespace Rag

set_option autoImplicit false

/-- Python strings, embedded as lists of characters. -/
abbrev Str := List Char

/-- Python `str.lower()`, embedded as per-character lowering. -/
def pyLower (s : Str) : Str := s.map Char.toLower

/-- Python `str.strip()`: drop leading and trailing whitespace. -/
def pyStrip (s : Str) : Str :=
  ((s.dropWhile Char.isWhitespace).reverse.dropWhile Char.isWhitespace).reverse

/-- Predicate `leadsList p s` is true when `p` is an initial segment of `s`. -/
def leadsList : Str → Str → Bool
  | [], _ => true
  | _ :: _, [] => false
  | a :: p, b :: s => a == b && leadsList p s

/-- Python `p in s` for strings: `p` occurs contiguously inside `s`. -/
def containsSub (p : Str) : Str → Bool
  | [] => p.isEmpty
  | c :: t => leadsList p (c :: t) || containsSub p t

/-- Number of positions of `s` at which the pattern `p` occurs. -/
def countOccs (p : Str) : Str → Nat
  | [] => 0
  | c :: t => (if leadsList p (c :: t) then 1 else 0) + countOccs p t

/-- Pattern `p` occurs contiguously (verbatim) inside `s`. -/
def hasSub (p s : Str) : Prop := ∃ u v, s = u ++ p ++ v

/-- Python `"sep".join(parts)`. -/
def joinSep (sep : Str) : List Str → Str
  | [] => []
  | [x] => x
  | x :: y :: rest => x ++ sep ++ joinSep sep (y :: rest)

/-- A LangChain `Document`: page content plus metadata (`search.py`,
`ingest.py` both consume this shape). -/
structure Document where
  page_content : Str
  metadata : List (Str × Str)
deriving DecidableEq

/-- Python exceptions that the two pipelines distinguish.  `msg` plays the
role of `str(e)`. -/
inductive PyError where
  | connectionError (msg : Str)
  | fileNotFoundError (msg : Str)
  | valueError (msg : Str)
  | otherError (msg : Str)
deriving DecidableEq

/-- Python `str(e)` for an embedded exception. -/
def PyError.msg : PyError → Str
  | .connectionError m => m
  | .fileNotFoundError m => m
  | .valueError m => m
  | .otherError m => m

/-- The fixed user-facing message of the dedicated connection error
(`search.py` line 151, `ingest.py` line 198). -/
def connFixedMsg : Str :=
  "Erro ao conectar ao banco de dados. Verifique se está rodando.".data

namespace Search

/-- Constant `SIMILARITY_K` (`search.py` line 56). -/
def SIMILARITY_K : Nat := 10

/-- The part of `PROMPT_TEMPLATE` before the `{contexto}` placeholder. -/
def promptA : Str := "\nCONTEXTO:\n".data

/-- The part of `PROMPT_TEMPLATE` between the `{contexto}` and `{pergunta}`
placeholders. -/
def promptB : Str :=
  ("\n\nREGRAS:\n- Responda somente com base no CONTEXTO.\n- Se a informação não estiver explicitamente no CONTEXTO, responda:\n  \"Não tenho informações necessárias para responder sua pergunta.\"\n- Nunca invente ou use conhecimento externo.\n- Nunca produza opiniões ou interpretações além do que está escrito.\n\nEXEMPLOS DE PERGUNTAS FORA DO CONTEXTO:\nPergunta: \"Qual é a capital da França?\"\nResposta: \"Não tenho informações necessárias para responder sua pergunta.\"\n\nPergunta: \"Quantos clientes temos em 2024?\"\nResposta: \"Não tenho informações necessárias para responder sua pergunta.\"\n\nPergunta: \"Você acha isso bom ou ruim?\"\nResposta: \"Não tenho informações necessárias para responder sua pergunta.\"\n\nPERGUNTA DO USUÁRIO:\n").data

/-- The part of `PROMPT_TEMPLATE` after the `{pergunta}` placeholder. -/
def promptC : Str := "\n\nRESPONDA A \"PERGUNTA DO USUÁRIO\"\n".data

/-- Constant `PROMPT_TEMPLATE` (`search.py` lines 60–85), verbatim. -/
def PROMPT_TEMPLATE : Str :=
  ("\nCONTEXTO:\n{contexto}\n\nREGRAS:\n- Responda somente com base no CONTEXTO.\n- Se a informação não estiver explicitamente no CONTEXTO, responda:\n  \"Não tenho informações necessárias para responder sua pergunta.\"\n- Nunca invente ou use conhecimento externo.\n- Nunca produza opiniões ou interpretações além do que está escrito.\n\nEXEMPLOS DE PERGUNTAS FORA DO CONTEXTO:\nPergunta: \"Qual é a capital da França?\"\nResposta: \"Não tenho informações necessárias para responder sua pergunta.\"\n\nPergunta: \"Quantos clientes temos em 2024?\"\nResposta: \"Não tenho informações necessárias para responder sua pergunta.\"\n\nPergunta: \"Você acha isso bom ou ruim?\"\nResposta: \"Não tenho informações necessárias para responder sua pergunta.\"\n\nPERGUNTA DO USUÁRIO:\n{pergunta}\n\nRESPONDA A \"PERGUNTA DO USUÁRIO\"\n").data

/-- The fixed fallback answer sentence of the template. -/
def fallbackSentence : Str :=
  "Não tenho informações necessárias para responder sua pergunta.".data

/-- One fixed few-shot example-answer line of the template. -/
def exampleAnswerLine : Str :=
  "Resposta: \"Não tenho informações necessárias para responder sua pergunta.\"".data

/-- The literal rule line of the template. -/
def ruleLine : Str := "Responda somente com base no CONTEXTO".data

/-- Function `format_prompt` (`search.py` lines 239–271).  LangChain's
`PromptTemplate.format` performs Python `str.format` on the fixed template,
whose only placeholders are `{contexto}` and `{pergunta}`; substituted values
are inserted verbatim and are not re-scanned, so the result is exactly this
concatenation. -/
def format_prompt (contexto pergunta : Str) : Str :=
  promptA ++ contexto ++ promptB ++ pergunta ++ promptC

/-- Function `build_context` (`search.py` lines 210–236): join the page contents of
the ranked results with blank lines, ignoring the scores.  The score type is
an arbitrary `α`, as the Python code never inspects it. -/
def build_context {α : Type} (results : List (Document × α)) : Str :=
  joinSep ("\n\n".data) (results.map fun r => r.1.page_content)

/-- The LLM response object; `content` is its text (`response.content`). -/
structure LLMResponse where
  content : Str
deriving DecidableEq

/-- Behaviour of the external collaborators used by `search.py`: embedding
client construction, `PGVector` construction, `ChatOpenAI` construction,
`similarity_search_with_score`, and `llm.invoke`.  Each may raise (return
`Except.error`).  `E`, `V`, `L` are the opaque client types, `S` the
similarity-score type. -/
structure QueryEnv (E V L S : Type) where
  mkEmbeddings : Except PyError E
  mkPGVector : E → Except PyError V
  mkLLM : Except PyError L
  similarity_search_with_score : V → Str → Nat → Except PyError (List (Document × S))
  llm_invoke : L → Str → Except PyError LLMResponse

variable {E V L S : Type}

/-- Function `get_embeddings` (`search.py` lines 96–115): construct the embedding
client. -/
def get_embeddings (env : QueryEnv E V L S) : Except PyError E :=
  env.mkEmbeddings

/-- Function `get_vector_store` (`search.py` lines 118–153): construct the embedding
client and the `PGVector` store; on any exception whose lowercased text
contains `connect` or `connection`, re-raise the dedicated connection error
with the fixed message, otherwise re-raise unchanged. -/
def get_vector_store (env : QueryEnv E V L S) : Except PyError V :=
  match (match get_embeddings env with
         | .error e => .error e
         | .ok emb => env.mkPGVector emb : Except PyError V) with
  | .ok vs => .ok vs
  | .error e =>
    if containsSub ("connect".data) (pyLower e.msg)
        || containsSub ("connection".data) (pyLower e.msg) then
      .error (.connectionError connFixedMsg)
    else
      .error e

/-- Function `get_llm` (`search.py` lines 156–175): construct the chat model client. -/
def get_llm (env : QueryEnv E V L S) : Except PyError L :=
  env.mkLLM

/-- Function `search_similar` (`search.py` lines 178–207): similarity search with the
fixed `k = SIMILARITY_K`. -/
def search_similar (env : QueryEnv E V L S) (vs : V) (query : Str) :
    Except PyError (List (Document × S)) :=
  env.similarity_search_with_score vs query SIMILARITY_K

/-- The values `search_prompt` can produce besides `None`: an answer string,
or `True` for the initialization-only call. -/
inductive QAnswer where
  | answer (content : Str)
  | initOk
deriving DecidableEq

/-- Observable external calls of the query pipeline that the spec claims are
sometimes skipped. -/
inductive QCall where
  | similarity
  | llmInvoke
deriving DecidableEq

/-- The body of the `try:` block of `search_prompt` (`search.py` lines
314–334), instrumented with the trace of similarity-search / LLM calls. -/
def searchPromptBody (env : QueryEnv E V L S) (question : Option Str) :
    Except PyError (Option QAnswer) × List QCall :=
  match get_vector_store env with
  | .error e => (.error e, [])
  | .ok vs =>
    match get_llm env with
    | .error e => (.error e, [])
    | .ok llm =>
      match question with
      | none => (.ok (some .initOk), [])
      | some q =>
        if pyStrip q = [] then (.ok none, [])
        else
          match search_similar env vs q with
          | .error e => (.error e, [QCall.similarity])
          | .ok results =>
            let context := build_context results
            let fprompt := format_prompt context q
            match env.llm_invoke llm fprompt with
            | .error e => (.error e, [QCall.similarity, QCall.llmInvoke])
            | .ok resp =>
              (.ok (some (.answer resp.content)), [QCall.similarity, QCall.llmInvoke])

/-- Function `search_prompt` (`search.py` lines 274–341): run the body; both `except`
handlers print a message and return `None`, embedded as mapping any error to
`none`. -/
def search_prompt (env : QueryEnv E V L S) (question : Option Str) :
    Option QAnswer × List QCall :=
  match searchPromptBody env question with
  | (.ok r, log) => (r, log)
  | (.error _, log) => (none, log)

end Search

namespace Ingest

/-- Constant `CHUNK_SIZE` (`ingest.py` line 60). -/
def CHUNK_SIZE : Nat := 1000

/-- Constant `CHUNK_OVERLAP` (`ingest.py` line 63). -/
def CHUNK_OVERLAP : Nat := 150

/-- Observable external stages of the ingestion pipeline. -/
inductive ICall where
  | loader
  | splitter
  | embeddingsCtor
  | storeWrite
deriving DecidableEq

/-- Behaviour of the external collaborators used by `ingest.py`: the file
system (`pathExists` for the configured `pdfPath`), the PDF loader, the
embedding-client constructor and `PGVector.from_documents`. -/
structure IngestEnv (E V : Type) where
  pdfPath : Str
  pathExists : Bool
  loaderLoad : Except PyError (List Document)
  mkEmbeddings : Except PyError E
  from_documents : List Document → E → Except PyError V

variable {E V : Type}

/-- Function `load_pdf` (`ingest.py` lines 67–95): raise the not-found error when the
path is missing, before the loader is constructed; otherwise run the loader.
The trace records whether the loader ran. -/
def load_pdf (env : IngestEnv E V) : Except PyError (List Document) × List ICall :=
  if env.pathExists = false then
    (.error (.fileNotFoundError ("Arquivo PDF não encontrado: ".data ++ env.pdfPath)), [])
  else
    (env.loaderLoad, [ICall.loader])

/-- Modelled from the spec: the text splitter itself
(`RecursiveCharacterTextSplitter` from `langchain_text_splitters`) is a
third-party collaborator whose code is not part of this repository.  Section
4.1 of the spec gives its contract: chunks of content length at most the
configured maximum, consecutive chunks sharing the configured overlap, empty
input giving empty output.  This models that contract as a sliding window of
width `CHUNK_SIZE` advancing by `CHUNK_SIZE - CHUNK_OVERLAP`; `fuel` bounds
the recursion by the text length. -/
def splitTextGo : Nat → Str → List Str
  | _, [] => []
  | 0, s => [s]
  | fuel + 1, s =>
    if s.length ≤ CHUNK_SIZE then [s]
    else s.take CHUNK_SIZE :: splitTextGo fuel (s.drop (CHUNK_SIZE - CHUNK_OVERLAP))

/-- Modelled from the spec: split one text into chunk contents (see
`splitTextGo`). -/
def splitText (s : Str) : List Str :=
  splitTextGo s.length s

/-- Function `split_documents` (`ingest.py` lines 98–133): split every document, each
chunk keeping the metadata of its source document. -/
def split_documents : List Document → List Document
  | [] => []
  | d :: rest =>
    (splitText d.page_content).map (fun c => { page_content := c, metadata := d.metadata })
      ++ split_documents rest

/-- Function `get_embeddings` (`ingest.py` lines 136–155): construct the embedding
client. -/
def get_embeddings (env : IngestEnv E V) : Except PyError E :=
  env.mkEmbeddings

/-- Function `store_embeddings` (`ingest.py` lines 158–200): `PGVector.from_documents`;
on any exception whose lowercased text contains `connect` or `connection`,
re-raise the dedicated connection error with the fixed message, otherwise
re-raise unchanged. -/
def store_embeddings (env : IngestEnv E V) (chunks : List Document) (embeddings : E) :
    Except PyError V :=
  match env.from_documents chunks embeddings with
  | .ok vs => .ok vs
  | .error e =>
    if containsSub ("connect".data) (pyLower e.msg)
        || containsSub ("connection".data) (pyLower e.msg) then
      .error (.connectionError connFixedMsg)
    else
      .error e

/-- Function `ingest_pdf` (`ingest.py` lines 203–250): load, validate, split, embed and
store; exceptions propagate (`Except.error`).  The trace records which
external stages ran. -/
def ingest_pdf (env : IngestEnv E V) : Except PyError Nat × List ICall :=
  match load_pdf env with
  | (.error e, log) => (.error e, log)
  | (.ok documents, log) =>
    if documents = [] then
      (.error (.valueError ("PDF não contém texto extraível.".data)), log)
    else
      let chunks := split_documents documents
      if chunks = [] then
        (.ok 0, log ++ [ICall.splitter])
      else
        match get_embeddings env with
        | .error e => (.error e, log ++ [ICall.splitter, ICall.embeddingsCtor])
        | .ok emb =>
          match store_embeddings env chunks emb with
          | .error e =>
            (.error e, log ++ [ICall.splitter, ICall.embeddingsCtor, ICall.storeWrite])
          | .ok _ =>
            (.ok chunks.length, log ++ [ICall.splitter, ICall.embeddingsCtor, ICall.storeWrite])

end Ingest

namespace Chat

/-- Constant `EXIT_COMMANDS` (`chat.py` line 36). -/
def EXIT_COMMANDS : List Str := ["sair".data, "exit".data, "quit".data]

/-- The fixed error line printed when the answer operation returned an
empty/absent result (`chat.py` line 117). -/
def errLine : Str := "RESPOSTA: Erro ao processar sua pergunta. Tente novamente.\n".data

/-- The label prepended to a non-empty answer (`chat.py` line 115). -/
def respLabel : Str := "RESPOSTA: ".data

/-- Why the interactive loop stopped. -/
inductive StopReason where
  | eof
  | exitCmd (cmd : Str)
deriving DecidableEq

/-- The interactive loop of `main` (`chat.py` lines 92–121) over a sequence of
input lines: end of the list is end-of-input.  `ans` is the answer operation
(`search_prompt` applied to a question; `none` models `None`, the empty string
the other falsy result).  The result is the list of printed response lines and
the reason the loop stopped. -/
def main_loop (ans : Str → Option Str) : List Str → List Str × StopReason
  | [] => ([], .eof)
  | line :: rest =>
    let question := pyStrip line
    if question = [] then main_loop ans rest
    else if pyLower question ∈ EXIT_COMMANDS then ([], .exitCmd question)
    else
      let printed :=
        match ans question with
        | some r => if r = [] then errLine else respLabel ++ r ++ ['\n']
        | none => errLine
      (printed :: (main_loop ans rest).1, (main_loop ans rest).2)

end Chat

/-! Concrete collaborator environments used by the witness theorems. -/

/-- A query environment whose `PGVector` construction raises an exception
mentioning a connection problem; everything else succeeds. -/
def qenvConnFail : Search.QueryEnv Unit Unit Unit Unit where
  mkEmbeddings := .ok ()
  mkPGVector := fun _ => .error (.otherError ("Connection refused by server".data))
  mkLLM := .ok ()
  similarity_search_with_score := fun _ _ _ => .ok []
  llm_invoke := fun _ _ => .ok ⟨[]⟩

/-- A query environment in which every collaborator succeeds. -/
def qenvOk : Search.QueryEnv Unit Unit Unit Unit where
  mkEmbeddings := .ok ()
  mkPGVector := fun _ => .ok ()
  mkLLM := .ok ()
  similarity_search_with_score := fun _ _ _ => .ok []
  llm_invoke := fun _ _ => .ok ⟨"ok".data⟩

/-- An ingestion environment whose configured document path is missing. -/
def ienvMissing : Ingest.IngestEnv Unit Unit where
  pdfPath := "document.pdf".data
  pathExists := false
  loaderLoad := .ok []
  mkEmbeddings := .ok ()
  from_documents := fun _ _ => .ok ()

/-- An ingestion environment in which the loader yields one page and the
vector-store write raises a non-connection exception. -/
def ienvBoom : Ingest.IngestEnv Unit Unit where
  pdfPath := "document.pdf".data
  pathExists := true
  loaderLoad := .ok [{ page_content := "x".data, metadata := [] }]
  mkEmbeddings := .ok ()
  from_documents := fun _ _ => .error (.otherError ("boom".data))

/-- An ingestion environment whose write path raises an exception mentioning a
connection problem. -/
def ienvConnFail : Ingest.IngestEnv Unit Unit where
  pdfPath := "document.pdf".data
  pathExists := true
  loaderLoad := .ok [{ page_content := "x".data, metadata := [] }]
  mkEmbeddings := .ok ()
  from_documents := fun _ _ => .error (.otherError ("Connection refused by server".data))

/-- An ingestion environment whose loader yields one document with empty
content, so that splitting produces zero chunks. -/
def ienvNoText : Ingest.IngestEnv Unit Unit where
  pdfPath := "document.pdf".data
  pathExists := true
  loaderLoad := .ok [{ page_content := [], metadata := [] }]
  mkEmbeddings := .ok ()
  from_documents := fun _ _ => .ok ()

/-- A fixed answer operation for the chat-loop witness. -/
def chatAnsOk : Str → Option Str := fun _ => some ("resposta".data)

/-- A small concrete document for witnesses. -/
def docAlpha : Document := { page_content := "alpha".data, metadata := [] }

/-- A second small concrete document for witnesses. -/
def docBeta : Document := { page_content := "beta".data, metadata := [] }

/-- A concrete document of exactly `CHUNK_SIZE + 500` characters. -/
def docLong : Document :=
  { page_content := List.replicate (Ingest.CHUNK_SIZE + 500) 'a', metadata := [] }

/-- A two-character concrete document. -/
def docTiny : Document := { page_content := "ab".data, metadata := [] }

set_option maxRecDepth 40000

/-! General lemmas about pattern occurrences under concatenation. -/

theorem leadsList_self_append (p t : Str) : leadsList p (p ++ t) = true := by
  induction p with
  | nil => rfl
  | cons a p ih => simp [leadsList, ih]

theorem leadsList_append_right (p : Str) :
    ∀ (x y : Str) (a : Char), p ≠ [] → a ∉ p → y.head? = some a →
      leadsList p (x ++ y) = leadsList p x := by
  induction p with
  | nil => intro x y a h; exact absurd rfl h
  | cons d p ih =>
    intro x y a _ hmem hy
    match x with
    | [] =>
      match y, hy with
      | b :: y', hy =>
        have hb : b = a := by simpa using hy
        have hd : (d == b) = false := by
          refine beq_eq_false_iff_ne.mpr ?_
          intro h
          exact hmem (by simp [← h, ← hb])
        simp [leadsList, hd]
    | c :: t =>
      by_cases hdc : d = c
      · subst hdc
        have hmem' : a ∉ p := fun h => hmem (List.mem_cons_of_mem _ h)
        cases p with
        | nil => simp [leadsList]
        | cons e p' =>
          have := ih t y a (by simp) hmem' hy
          simp [leadsList, this]
      · have hd : (d == c) = false := beq_eq_false_iff_ne.mpr hdc
        simp [leadsList, hd]

theorem leadsList_append_left (p : Str) :
    ∀ (x y : Str) (a : Char), p ≠ [] → a ∉ p → x.getLast? = some a →
      leadsList p (x ++ y) = leadsList p x := by
  induction p with
  | nil => intro x y a h; exact absurd rfl h
  | cons d p ih =>
    intro x y a _ hmem hx
    match x with
    | [] => simp at hx
    | [c] =>
      have hc : c = a := by simpa using hx
      have hd : (d == c) = false := by
        refine beq_eq_false_iff_ne.mpr ?_
        intro h
        exact hmem (by simp [← h, ← hc])
      simp [leadsList, hd]
    | c :: c' :: t =>
      by_cases hdc : d = c
      · subst hdc
        have hmem' : a ∉ p := fun h => hmem (List.mem_cons_of_mem _ h)
        have hx' : (c' :: t).getLast? = some a := by
          rw [List.getLast?_cons_cons] at hx; exact hx
        cases p with
        | nil => simp [leadsList]
        | cons e p' =>
          have := ih (c' :: t) y a (by simp) hmem' hx'
          simp only [List.cons_append, leadsList] at this ⊢
          rw [this]
      · have hd : (d == c) = false := beq_eq_false_iff_ne.mpr hdc
        simp [leadsList, hd]

theorem countOccs_append_right (p x y : Str) (a : Char)
    (hp : p ≠ []) (hmem : a ∉ p) (hy : y.head? = some a) :
    countOccs p (x ++ y) = countOccs p x + countOccs p y := by
  induction x with
  | nil => simp [countOccs]
  | cons c t ih =>
    have hb : leadsList p ((c :: t) ++ y) = leadsList p (c :: t) :=
      leadsList_append_right p (c :: t) y a hp hmem hy
    simp only [List.cons_append, countOccs, List.append_eq] at hb ⊢
    simp only [hb, ih]
    omega

theorem countOccs_append_left (p x y : Str) (a : Char)
    (hp : p ≠ []) (hmem : a ∉ p) (hx : x.getLast? = some a) :
    countOccs p (x ++ y) = countOccs p x + countOccs p y := by
  induction x with
  | nil => simp at hx
  | cons c t ih =>
    have hb : leadsList p ((c :: t) ++ y) = leadsList p (c :: t) :=
      leadsList_append_left p (c :: t) y a hp hmem hx
    cases t with
    | nil =>
      simp only [List.cons_append, List.nil_append, countOccs, List.append_eq] at hb ⊢
      simp only [hb]
      omega
    | cons c' t' =>
      have hx' : (c' :: t').getLast? = some a := by
        rw [List.getLast?_cons_cons] at hx; exact hx
      have ih' := ih hx'
      simp only [List.cons_append, countOccs, List.append_eq] at hb ih' ⊢
      simp only [hb, ih']
      omega

/-- Computing `head?` of an append whose left part is nonempty. -/
theorem head?_append_some {x : Str} (z : Str) {a : Char} (hx : x.head? = some a) :
    (x ++ z).head? = some a := by
  cases x with
  | nil => simp at hx
  | cons b t => simpa using hx

/-- Occurrence counting in a formatted prompt splits over the five segments:
the template pieces have `'\n'` at every boundary, so a pattern without a
newline cannot straddle them. -/
theorem format_prompt_countOccs (p : Str) (hp : p ≠ []) (hnl : ('\n') ∉ p)
    (contexto pergunta : Str) :
    countOccs p (Search.format_prompt contexto pergunta) =
      countOccs p Search.promptA + countOccs p contexto + countOccs p Search.promptB
        + countOccs p pergunta + countOccs p Search.promptC := by
  have hA : Search.promptA.getLast? = some '\n' := by decide
  have hB : Search.promptB.getLast? = some '\n' := by decide
  have hBh : Search.promptB.head? = some '\n' := by decide
  have hCh : Search.promptC.head? = some '\n' := by decide
  have e1 : Search.format_prompt contexto pergunta =
      Search.promptA ++ (contexto ++ (Search.promptB ++ (pergunta ++ Search.promptC))) := by
    simp [Search.format_prompt, List.append_assoc]
  rw [e1]
  rw [countOccs_append_left p Search.promptA _ '\n' hp hnl hA]
  rw [countOccs_append_right p contexto _ '\n' hp hnl
    (head?_append_some (pergunta ++ Search.promptC) hBh)]
  rw [countOccs_append_left p Search.promptB _ '\n' hp hnl hB]
  rw [countOccs_append_right p pergunta _ '\n' hp hnl hCh]
  omega

/-- C1 (amended).  For every pair of strings `(contexto, pergunta)`, the
formatted prompt contains the context verbatim, the question verbatim and the
literal rule line "Responda somente com base no CONTEXTO"; the fixed
example-answer line (`Resposta: "Não tenho informações necessárias para
responder sua pergunta."`) occurs exactly `3` times plus however many
occurrences the context and the question themselves contain, and the bare
fallback sentence occurs exactly `4` times plus the occurrences inside the
context and the question (the fourth copy is the one quoted in the REGRAS
section).  In particular, the counts are exactly three and four whenever
neither input contains them. -/
theorem format_prompt_contents_and_counts (contexto pergunta : Str) :
    hasSub contexto (Search.format_prompt contexto pergunta)
    ∧ hasSub pergunta (Search.format_prompt contexto pergunta)
    ∧ hasSub Search.ruleLine (Search.format_prompt contexto pergunta)
    ∧ countOccs Search.exampleAnswerLine (Search.format_prompt contexto pergunta)
        = 3 + countOccs Search.exampleAnswerLine contexto
            + countOccs Search.exampleAnswerLine pergunta
    ∧ countOccs Search.fallbackSentence (Search.format_prompt contexto pergunta)
        = 4 + countOccs Search.fallbackSentence contexto
            + countOccs Search.fallbackSentence pergunta := by
  refine ⟨?_, ?_, ?_, ?_, ?_⟩
  · exact ⟨Search.promptA, Search.promptB ++ pergunta ++ Search.promptC, by
      simp [Search.format_prompt, List.append_assoc]⟩
  · exact ⟨Search.promptA ++ contexto ++ Search.promptB, Search.promptC, by
      simp [Search.format_prompt, List.append_assoc]⟩
  · have hB : Search.promptB =
        Search.promptB.take 12 ++ Search.ruleLine ++ Search.promptB.drop 49 := by decide
    refine ⟨Search.promptA ++ contexto ++ Search.promptB.take 12,
      Search.promptB.drop 49 ++ pergunta ++ Search.promptC, ?_⟩
    calc Search.format_prompt contexto pergunta
        = Search.promptA ++ contexto ++ Search.promptB ++ pergunta ++ Search.promptC := rfl
      _ = Search.promptA ++ contexto
            ++ (Search.promptB.take 12 ++ Search.ruleLine ++ Search.promptB.drop 49)
            ++ pergunta ++ Search.promptC := by rw [← hB]
      _ = Search.promptA ++ contexto ++ Search.promptB.take 12 ++ Search.ruleLine
            ++ (Search.promptB.drop 49 ++ pergunta ++ Search.promptC) := by
            simp [List.append_assoc]
  · have h := format_prompt_countOccs Search.exampleAnswerLine (by decide) (by decide)
      contexto pergunta
    have cA : countOccs Search.exampleAnswerLine Search.promptA = 0 := by decide
    have cB : countOccs Search.exampleAnswerLine Search.promptB = 3 := by decide
    have cC : countOccs Search.exampleAnswerLine Search.promptC = 0 := by decide
    rw [h, cA, cB, cC]
    omega
  · have h := format_prompt_countOccs Search.fallbackSentence (by decide) (by decide)
      contexto pergunta
    have cA : countOccs Search.fallbackSentence Search.promptA = 0 := by decide
    have cB : countOccs Search.fallbackSentence Search.promptB = 4 := by decide
    have cC : countOccs Search.fallbackSentence Search.promptC = 0 := by decide
    rw [h, cA, cB, cC]
    omega

/-- C1 counterexample.  The claim "the output contains exactly three
occurrences of the fixed fallback-answer example line, for all string inputs"
fails: with a context that itself consists of the example-answer line, the
formatted prompt contains that line four times (and the bare fallback sentence
five times) — and even for the empty context the bare sentence occurs four
times, not three, because the REGRAS section quotes it once in addition to the
three examples. -/
theorem format_prompt_exactly_three_fails :
    countOccs Search.exampleAnswerLine
        (Search.format_prompt Search.exampleAnswerLine []) = 4
    ∧ countOccs Search.fallbackSentence
        (Search.format_prompt Search.exampleAnswerLine []) = 5
    ∧ countOccs Search.exampleAnswerLine
        (Search.format_prompt Search.exampleAnswerLine []) ≠ 3
    ∧ countOccs Search.fallbackSentence
        (Search.format_prompt Search.exampleAnswerLine []) ≠ 3 := by
  have h1 : countOccs Search.exampleAnswerLine
      (Search.format_prompt Search.exampleAnswerLine []) = 4 := by decide
  have h2 : countOccs Search.fallbackSentence
      (Search.format_prompt Search.exampleAnswerLine []) = 5 := by decide
  exact ⟨h1, h2, by rw [h1]; decide, by rw [h2]; decide⟩

/-- C2.  Context assembly is a pure, deterministic function fully described by
its concatenation equations: the empty result list gives the empty string, a
single result gives exactly its content with no separator, and a list with at
least two results gives the head's content, the separator `"\n\n"`, then the
assembly of the tail — so content `i` always appears before content `i+1`. -/
theorem build_context_concatenation {α : Type} :
    (Search.build_context ([] : List (Document × α)) = [])
    ∧ (∀ r : Document × α, Search.build_context [r] = r.1.page_content)
    ∧ (∀ (r s : Document × α) (rest : List (Document × α)),
        Search.build_context (r :: s :: rest)
          = r.1.page_content ++ ("\n\n".data) ++ Search.build_context (s :: rest)) :=
  ⟨rfl, fun _ => rfl, fun _ _ _ => rfl⟩

/-- C9.  Two-run noninterference of `build_context` in the similarity scores:
two result lists carrying the same documents in the same order but arbitrary
(even differently typed) scores produce the identical context string. -/
theorem build_context_score_noninterference {α β : Type}
    (rs1 : List (Document × α)) (rs2 : List (Document × β))
    (h : rs1.map Prod.fst = rs2.map Prod.fst) :
    Search.build_context rs1 = Search.build_context rs2 := by
  unfold Search.build_context
  have h1 : rs1.map (fun r => r.1.page_content)
      = (rs1.map Prod.fst).map Document.page_content := by
    rw [List.map_map]; rfl
  have h2 : rs2.map (fun r => r.1.page_content)
      = (rs2.map Prod.fst).map Document.page_content := by
    rw [List.map_map]; rfl
  rw [h1, h2, h]

/-- C9 witness: same documents, different integer scores, identical context. -/
theorem build_context_score_noninterference_witness :
    Search.build_context [(docAlpha, (3 : Int)), (docBeta, (-7 : Int))]
      = Search.build_context [(docAlpha, (100 : Int)), (docBeta, (0 : Int))] :=
  build_context_score_noninterference _ _ rfl

/-- C3.  `search_prompt` never propagates an exception: whenever the body of
its `try:` block raises (any collaborator error whatsoever), the public result
is `none`; in particular this holds when the store construction raises an
error whose message mentions "connection". -/
theorem search_prompt_swallows_errors {E V L S : Type}
    (env : Search.QueryEnv E V L S) (question : Option Str) :
    (∀ e log, Search.searchPromptBody env question = (.error e, log) →
      (Search.search_prompt env question).1 = none)
    ∧ (∀ emb e, env.mkEmbeddings = .ok emb → env.mkPGVector emb = .error e →
        containsSub ("connection".data) (pyLower (PyError.msg e)) = true →
        (Search.search_prompt env question).1 = none) := by
  constructor
  · intro e log h
    simp [Search.search_prompt, h]
  · intro emb e hemb hpg _
    have hgvs : ∃ e', Search.get_vector_store env = .error e' := by
      simp only [Search.get_vector_store, Search.get_embeddings, hemb, hpg]
      split
      · exact ⟨_, rfl⟩
      · exact ⟨_, rfl⟩
    obtain ⟨e', he'⟩ := hgvs
    simp [Search.search_prompt, Search.searchPromptBody, he']

/-- C3 witness: a store whose construction raises "Connection refused by
server" yields an absent answer rather than an exception. -/
theorem search_prompt_swallows_errors_witness :
    (Search.search_prompt qenvConnFail (some ("ping".data))).1 = none :=
  (search_prompt_swallows_errors qenvConnFail (some ("ping".data))).2 ()
    (PyError.otherError ("Connection refused by server".data)) rfl rfl (by decide)

/-- A string consisting only of whitespace strips to the empty string. -/
theorem pyStrip_nil_of_ws {q : Str} (h : ∀ c ∈ q, c.isWhitespace = true) :
    pyStrip q = [] := by
  have h1 : q.dropWhile Char.isWhitespace = [] := List.dropWhile_eq_nil_iff.mpr h
  simp [pyStrip, h1]

/-- C4.  On an empty or whitespace-only question, `search_prompt` returns
`none` and its call trace is empty: neither the similarity search nor the
language model is invoked, for every collaborator behaviour. -/
theorem search_prompt_blank_question {E V L S : Type}
    (env : Search.QueryEnv E V L S) (q : Str)
    (h : ∀ c ∈ q, c.isWhitespace = true) :
    Search.search_prompt env (some q) = (none, []) := by
  have hs : pyStrip q = [] := pyStrip_nil_of_ws h
  cases hgvs : Search.get_vector_store env with
  | error e => simp [Search.search_prompt, Search.searchPromptBody, hgvs]
  | ok vs =>
    cases hllm : Search.get_llm env with
    | error e => simp [Search.search_prompt, Search.searchPromptBody, hgvs, hllm]
    | ok llm => simp [Search.search_prompt, Search.searchPromptBody, hgvs, hllm, hs]

/-- C4 witness: the one-space question yields `(none, [])` even though every
collaborator of the environment succeeds. -/
theorem search_prompt_blank_question_witness :
    Search.search_prompt qenvOk (some [' ']) = (none, []) :=
  search_prompt_blank_question qenvOk [' '] (by decide)

/-- C5.  For every exception raised by the vector-store collaborator during
store construction (`get_vector_store`) or during the write path
(`store_embeddings`): if its lowercased text contains "connect" or
"connection" it is re-raised as the dedicated connection error carrying the
fixed message, otherwise the original exception is re-raised unchanged. -/
theorem connection_error_wrapping :
    (∀ (E V L S : Type) (env : Search.QueryEnv E V L S) (emb : E) (e : PyError),
      env.mkEmbeddings = .ok emb → env.mkPGVector emb = .error e →
      Search.get_vector_store env =
        .error (if containsSub ("connect".data) (pyLower (PyError.msg e))
                    || containsSub ("connection".data) (pyLower (PyError.msg e)) then
                  .connectionError connFixedMsg
                else e))
    ∧ (∀ (E V : Type) (env : Ingest.IngestEnv E V) (chunks : List Document)
        (emb : E) (e : PyError),
      env.from_documents chunks emb = .error e →
      Ingest.store_embeddings env chunks emb =
        .error (if containsSub ("connect".data) (pyLower (PyError.msg e))
                    || containsSub ("connection".data) (pyLower (PyError.msg e)) then
                  .connectionError connFixedMsg
                else e)) := by
  constructor
  · intro E V L S env emb e hemb hpg
    simp only [Search.get_vector_store, Search.get_embeddings, hemb, hpg]
    split <;> rfl
  · intro E V env chunks emb e hfd
    simp only [Ingest.store_embeddings, hfd]
    split <;> rfl

/-- C5 witness: a raised "Connection refused by server" is re-raised as the
dedicated connection error with the fixed message, on both paths. -/
theorem connection_error_wrapping_witness :
    Search.get_vector_store qenvConnFail = .error (.connectionError connFixedMsg)
    ∧ Ingest.store_embeddings ienvConnFail [docTiny] ()
        = .error (.connectionError connFixedMsg) := by
  constructor
  · have h := connection_error_wrapping.1 Unit Unit Unit Unit qenvConnFail ()
      (PyError.otherError ("Connection refused by server".data)) rfl rfl
    rw [h, if_pos (by decide)]
  · have h := connection_error_wrapping.2 Unit Unit ienvConnFail [docTiny] ()
      (PyError.otherError ("Connection refused by server".data)) rfl
    rw [h, if_pos (by decide)]

/-- C6 (amended).  `ingest_pdf` raises the distinct not-found error when the
configured path does not exist, before any pipeline stage runs (empty call
trace, hence no side effects); it raises the distinct invalid-content error
when the loader yields zero documents; and it returns the number of chunks
produced by splitting whenever the downstream stages succeed (including the
zero-chunk case, which skips them).  Exceptions raised by the embedding
client or the store write propagate instead of producing a count. -/
theorem ingest_pdf_error_paths :
    ∀ (E V : Type) (env : Ingest.IngestEnv E V),
      (env.pathExists = false →
        Ingest.ingest_pdf env =
          (.error (.fileNotFoundError ("Arquivo PDF não encontrado: ".data ++ env.pdfPath)),
            []))
      ∧ (env.pathExists = true → env.loaderLoad = .ok [] →
          (Ingest.ingest_pdf env).1
            = .error (.valueError ("PDF não contém texto extraível.".data)))
      ∧ (∀ (docs : List Document) (emb : E) (vs : V),
          env.pathExists = true → env.loaderLoad = .ok docs → docs ≠ [] →
          env.mkEmbeddings = .ok emb →
          env.from_documents (Ingest.split_documents docs) emb = .ok vs →
          (Ingest.ingest_pdf env).1 = .ok (Ingest.split_documents docs).length) := by
  intro E V env
  refine ⟨?_, ?_, ?_⟩
  · intro h
    simp [Ingest.ingest_pdf, Ingest.load_pdf, h]
  · intro h1 h2
    simp [Ingest.ingest_pdf, Ingest.load_pdf, h1, h2]
  · intro docs emb vs h1 h2 hne hemb hfd
    by_cases hch : Ingest.split_documents docs = []
    · simp [Ingest.ingest_pdf, Ingest.load_pdf, h1, h2, hne, hch]
    · simp [Ingest.ingest_pdf, Ingest.load_pdf, Ingest.get_embeddings,
        Ingest.store_embeddings, h1, h2, hne, hch, hemb, hfd]

/-- C6 counterexample.  The claim "in all other cases it returns the number of
chunks processed" is false: with an existing path, a loader yielding one page
of text and a store write that raises a non-connection exception, `ingest_pdf`
raises that exception instead of returning any count. -/
theorem ingest_pdf_returns_count_fails :
    (Ingest.ingest_pdf ienvBoom).1 = .error (.otherError ("boom".data))
    ∧ ¬ ∃ n, (Ingest.ingest_pdf ienvBoom).1 = .ok n := by
  have h : (Ingest.ingest_pdf ienvBoom).1 = .error (.otherError ("boom".data)) := by
    rfl
  refine ⟨h, ?_⟩
  rintro ⟨n, hn⟩
  rw [h] at hn
  exact Except.noConfusion hn

/-- C6 witness: the missing-path error fires with an empty call trace, and a
successful run returns the chunk count. -/
theorem ingest_pdf_error_paths_witness :
    Ingest.ingest_pdf ienvMissing =
      (.error (.fileNotFoundError ("Arquivo PDF não encontrado: ".data ++ ienvMissing.pdfPath)),
        [])
    ∧ (Ingest.ingest_pdf ienvNoText).1
        = .ok (Ingest.split_documents [{ page_content := [], metadata := [] }]).length :=
  ⟨(ingest_pdf_error_paths Unit Unit ienvMissing).1 rfl,
   (ingest_pdf_error_paths Unit Unit ienvNoText).2.2
     [{ page_content := [], metadata := [] }] () () rfl rfl (by decide) rfl rfl⟩

/-- Every chunk content produced by the modelled splitter is at most
`CHUNK_SIZE` characters long (given enough fuel). -/
theorem splitTextGo_length_le :
    ∀ (fuel : Nat) (s : Str), s.length ≤ fuel →
      ∀ c ∈ Ingest.splitTextGo fuel s, c.length ≤ Ingest.CHUNK_SIZE := by
  intro fuel
  induction fuel with
  | zero =>
    intro s hs c hc
    have hnil : s = [] := List.eq_nil_of_length_eq_zero (Nat.le_zero.mp hs)
    subst hnil
    simp [Ingest.splitTextGo] at hc
  | succ n ih =>
    intro s hs c hc
    cases s with
    | nil => simp [Ingest.splitTextGo] at hc
    | cons a t =>
      simp only [Ingest.splitTextGo] at hc
      by_cases hlen : (a :: t).length ≤ Ingest.CHUNK_SIZE
      · rw [if_pos hlen] at hc
        simp at hc
        subst hc
        exact hlen
      · rw [if_neg hlen] at hc
        rcases List.mem_cons.mp hc with h | h
        · subst h
          rw [List.length_take]
          exact Nat.min_le_left _ _
        · refine ih _ ?_ c h
          rw [List.length_drop]
          simp only [Ingest.CHUNK_SIZE, Ingest.CHUNK_OVERLAP] at hlen ⊢
          simp only [List.length_cons] at hlen hs ⊢
          omega

/-- The modelled splitter returns no chunks only on empty content. -/
theorem splitTextGo_ne_nil (fuel : Nat) (s : Str) (hs : s ≠ []) :
    Ingest.splitTextGo fuel s ≠ [] := by
  cases fuel with
  | zero =>
    cases s with
    | nil => exact absurd rfl hs
    | cons a t => simp [Ingest.splitTextGo]
  | succ n =>
    cases s with
    | nil => exact absurd rfl hs
    | cons a t =>
      simp only [Ingest.splitTextGo]
      split <;> simp

/-- C7.  Splitting the empty document sequence yields no chunks; every chunk
produced by `split_documents` has content length at most
`CHUNK_SIZE + CHUNK_OVERLAP` (indeed at most `CHUNK_SIZE`); and a single
document whose content is exactly `CHUNK_SIZE + 500` characters is split into
at least two chunks. -/
theorem split_documents_bounds :
    (Ingest.split_documents [] = [])
    ∧ (∀ (docs : List Document) (chunk : Document), chunk ∈ Ingest.split_documents docs →
        chunk.page_content.length ≤ Ingest.CHUNK_SIZE + Ingest.CHUNK_OVERLAP)
    ∧ (∀ d : Document, d.page_content.length = Ingest.CHUNK_SIZE + 500 →
        2 ≤ (Ingest.split_documents [d]).length) := by
  refine ⟨rfl, ?_, ?_⟩
  · intro docs
    induction docs with
    | nil => intro chunk hc; simp [Ingest.split_documents] at hc
    | cons d rest ih =>
      intro chunk hc
      simp only [Ingest.split_documents, List.mem_append] at hc
      rcases hc with hc | hc
      · rcases List.mem_map.mp hc with ⟨c, hcmem, hceq⟩
        have hle : c.length ≤ Ingest.CHUNK_SIZE :=
          splitTextGo_length_le d.page_content.length d.page_content le_rfl c hcmem
        rw [← hceq]
        exact le_trans hle (Nat.le_add_right _ _)
      · exact ih chunk hc
  · intro d hd
    have hlen : (Ingest.split_documents [d]).length
        = (Ingest.splitText d.page_content).length := by
      simp [Ingest.split_documents]
    rw [hlen]
    unfold Ingest.splitText
    cases hs : d.page_content with
    | nil =>
      rw [hs] at hd
      simp [Ingest.CHUNK_SIZE] at hd
    | cons a t =>
      rw [hs] at hd
      rw [hd]
      have hd' : (a :: t).length = 1500 := by
        simpa [Ingest.CHUNK_SIZE] using hd
      show 2 ≤ (Ingest.splitTextGo (Ingest.CHUNK_SIZE + 500) (a :: t)).length
      rw [show Ingest.CHUNK_SIZE + 500 = 1499 + 1 from by simp [Ingest.CHUNK_SIZE]]
      simp only [Ingest.splitTextGo]
      rw [if_neg (by rw [hd']; simp [Ingest.CHUNK_SIZE])]
      simp only [List.length_cons]
      have hne : (a :: t).drop (Ingest.CHUNK_SIZE - Ingest.CHUNK_OVERLAP) ≠ [] := by
        intro hnil
        have hlen0 := congrArg List.length hnil
        rw [List.length_drop, hd'] at hlen0
        simp [Ingest.CHUNK_SIZE, Ingest.CHUNK_OVERLAP] at hlen0
      have hpos : 0 < (Ingest.splitTextGo 1499
          ((a :: t).drop (Ingest.CHUNK_SIZE - Ingest.CHUNK_OVERLAP))).length :=
        List.length_pos.mpr (splitTextGo_ne_nil 1499 _ hne)
      omega

/-- C7 witness: a two-character document is its own chunk, within the bound,
and the `CHUNK_SIZE + 500`-character document splits into at least two
chunks. -/
theorem split_documents_bounds_witness :
    docTiny.page_content.length ≤ Ingest.CHUNK_SIZE + Ingest.CHUNK_OVERLAP
    ∧ 2 ≤ (Ingest.split_documents [docLong]).length :=
  ⟨split_documents_bounds.2.1 [docTiny] docTiny (by decide),
   split_documents_bounds.2.2 docLong (by simp [docLong])⟩

/-- C10.  When the loader yields non-empty documents but splitting produces
zero chunks, `ingest_pdf` returns `0` and its call trace shows that neither
the embedding client construction nor the vector-store write ran, so the
external store is untouched on this path. -/
theorem ingest_pdf_empty_chunks_frame :
    ∀ (E V : Type) (env : Ingest.IngestEnv E V) (docs : List Document),
      env.pathExists = true → env.loaderLoad = .ok docs → docs ≠ [] →
      Ingest.split_documents docs = [] →
      (Ingest.ingest_pdf env).1 = .ok 0
      ∧ Ingest.ICall.embeddingsCtor ∉ (Ingest.ingest_pdf env).2
      ∧ Ingest.ICall.storeWrite ∉ (Ingest.ingest_pdf env).2 := by
  intro E V env docs h1 h2 hne hch
  have hres : Ingest.ingest_pdf env = (.ok 0, [Ingest.ICall.loader, Ingest.ICall.splitter]) := by
    simp [Ingest.ingest_pdf, Ingest.load_pdf, h1, h2, hne, hch]
  rw [hres]
  exact ⟨rfl, by decide, by decide⟩

/-- C10 witness: a loader yielding one empty-content page gives zero chunks,
a returned count of `0`, and no embedding/store call. -/
theorem ingest_pdf_empty_chunks_frame_witness :
    (Ingest.ingest_pdf ienvNoText).1 = .ok 0
    ∧ Ingest.ICall.embeddingsCtor ∉ (Ingest.ingest_pdf ienvNoText).2
    ∧ Ingest.ICall.storeWrite ∉ (Ingest.ingest_pdf ienvNoText).2 :=
  ingest_pdf_empty_chunks_frame Unit Unit ienvNoText
    [{ page_content := [], metadata := [] }] rfl rfl (by decide) rfl

/-- Interactive loop: a line that strips to empty is skipped. -/
theorem main_loop_cons_skip (ans : Str → Option Str) (line : Str) (rest : List Str)
    (h : pyStrip line = []) :
    Chat.main_loop ans (line :: rest) = Chat.main_loop ans rest := by
  simp [Chat.main_loop, h]

/-- Interactive loop: a trimmed line whose lowercasing is an exit command
stops the loop. -/
theorem main_loop_cons_exit (ans : Str → Option Str) (line : Str) (rest : List Str)
    (h1 : pyStrip line ≠ []) (h2 : pyLower (pyStrip line) ∈ Chat.EXIT_COMMANDS) :
    Chat.main_loop ans (line :: rest) = ([], .exitCmd (pyStrip line)) := by
  simp [Chat.main_loop, h1, h2]

/-- Interactive loop: any other line is passed to the answer operation and a
response line is printed. -/
theorem main_loop_cons_answer (ans : Str → Option Str) (line : Str) (rest : List Str)
    (h1 : pyStrip line ≠ []) (h2 : pyLower (pyStrip line) ∉ Chat.EXIT_COMMANDS) :
    Chat.main_loop ans (line :: rest) =
      ((match ans (pyStrip line) with
        | some r => if r = [] then Chat.errLine else Chat.respLabel ++ r ++ ['\n']
        | none => Chat.errLine) :: (Chat.main_loop ans rest).1,
       (Chat.main_loop ans rest).2) := by
  simp [Chat.main_loop, h1, h2]

/-- The loop stops only at end-of-input or at an exit command. -/
theorem main_loop_stop (ans : Str → Option Str) :
    ∀ lines : List Str, (Chat.main_loop ans lines).2 = .eof
      ∨ ∃ cmd, (Chat.main_loop ans lines).2 = .exitCmd cmd
          ∧ pyLower cmd ∈ Chat.EXIT_COMMANDS := by
  intro lines
  induction lines with
  | nil => exact Or.inl rfl
  | cons line rest ih =>
    by_cases h1 : pyStrip line = []
    · rw [main_loop_cons_skip ans line rest h1]
      exact ih
    · by_cases h2 : pyLower (pyStrip line) ∈ Chat.EXIT_COMMANDS
      · rw [main_loop_cons_exit ans line rest h1 h2]
        exact Or.inr ⟨pyStrip line, rfl, h2⟩
      · rw [main_loop_cons_answer ans line rest h1 h2]
        exact ih

/-- C8.  The interactive loop stops only at end-of-input or at a line whose
trimmed, lowercased form is one of `sair`, `exit`, `quit`; a line that trims
to empty is skipped without consulting the answer operation (the equation
holds for every `ans`); every other line is passed (trimmed) to the answer
operation, and the loop prints the answer prefixed with "RESPOSTA: " when it
is non-empty, or the fixed error line when it is empty or absent. -/
theorem chat_loop_behavior (ans : Str → Option Str) (line : Str) (rest lines : List Str) :
    (Chat.main_loop ans [] = ([], .eof))
    ∧ (pyStrip line = [] → Chat.main_loop ans (line :: rest) = Chat.main_loop ans rest)
    ∧ (pyStrip line ≠ [] → pyLower (pyStrip line) ∈ Chat.EXIT_COMMANDS →
        Chat.main_loop ans (line :: rest) = ([], .exitCmd (pyStrip line)))
    ∧ (pyStrip line ≠ [] → pyLower (pyStrip line) ∉ Chat.EXIT_COMMANDS →
        Chat.main_loop ans (line :: rest) =
          ((match ans (pyStrip line) with
            | some r => if r = [] then Chat.errLine else Chat.respLabel ++ r ++ ['\n']
            | none => Chat.errLine) :: (Chat.main_loop ans rest).1,
           (Chat.main_loop ans rest).2))
    ∧ ((Chat.main_loop ans lines).2 = .eof
        ∨ ∃ cmd, (Chat.main_loop ans lines).2 = .exitCmd cmd
            ∧ pyLower cmd ∈ Chat.EXIT_COMMANDS) :=
  ⟨rfl, main_loop_cons_skip ans line rest, main_loop_cons_exit ans line rest,
   main_loop_cons_answer ans line rest, main_loop_stop ans lines⟩

/-- C8 witness: `sair` stops the loop; a whitespace-only line is skipped. -/
theorem chat_loop_behavior_witness :
    Chat.main_loop chatAnsOk ["sair".data] = ([], .exitCmd (pyStrip ("sair".data)))
    ∧ Chat.main_loop chatAnsOk ["   ".data] = Chat.main_loop chatAnsOk [] :=
  ⟨(chat_loop_behavior chatAnsOk ("sair".data) [] []).2.2.1 (by decide) (by decide),
   (chat_loop_behavior chatAnsOk ("   ".data) [] []).2.1 (by decide)⟩

end Rag

